import Mathlib

/-!
# Fetch-the-Bone: shallow embedding of the simulation core

This file embeds the game core of `src/game.js` (the "Fetch the Bone" canvas
game) in Lean and proves the specification's claims about it.

Modelling conventions:

* JavaScript numbers are modelled as `ℚ` (all constants in the source are
  exact decimals, so rational arithmetic reproduces the code exactly on the
  inputs considered here).
* The canvas dimensions `CANVAS_W`/`CANVAS_H` are read from the DOM, so they
  are parameters (`Env`).
* `Math.random()` draws made by the spawner are parameters (`SpawnRand`):
  one tick consumes at most one triple (size, x, vy).
* The mutable module-level variables `score, lives, running, player, bones,
  spawnTimer, spawnInterval` form `GameState`; the input variables
  `keys, mouseX, useHandControl, handXNormalized` form `ControlState`.
* `update` models one invocation of the per-frame callback `update()`;
  rendering (`draw`) does not touch simulation state and is omitted.
* The backwards `for` loop over `bones` with `splice` is modelled by
  `processBones`, which processes the list from its last element to its
  first, exactly as the indices are visited in the source.
-/

/-- Canvas geometry: `CANVAS_W` and `CANVAS_H` from `game.js`. -/
structure Env where
  W : ℚ
  H : ℚ
deriving DecidableEq

/-- The `player` object of `game.js` (fields `x, y, w, h, speed`). -/
structure Player where
  x : ℚ
  y : ℚ
  w : ℚ
  h : ℚ
  speed : ℚ
deriving DecidableEq

/-- A falling bone as pushed by the spawner (fields `x, y, vy, size`). -/
structure Bone where
  x : ℚ
  y : ℚ
  vy : ℚ
  size : ℚ
deriving DecidableEq

/-- The input-side module variables of `game.js`: the four tracked entries of
the `keys` map, `mouseX` (null until the first mousemove), and the hand-control
pair `useHandControl` / `handXNormalized`. -/
structure ControlState where
  arrowleft : Bool
  a : Bool
  arrowright : Bool
  d : Bool
  mouseX : Option ℚ
  useHandControl : Bool
  handXNormalized : Option ℚ
deriving DecidableEq

/-- The simulation-side module variables of `game.js`. -/
structure GameState where
  score : ℤ
  lives : ℤ
  running : Bool
  player : Player
  bones : List Bone
  spawnTimer : ℤ
  spawnInterval : ℚ
deriving DecidableEq

/-- The initial values of the module variables on page load
(`score = 0`, `lives = 3`, `running = false`, the `player` literal,
`bones = []`, `spawnTimer = 0`, `spawnInterval = 80`). -/
def initialState (env : Env) : GameState :=
  { score := 0
    lives := 3
    running := false
    player := { x := env.W / 2, y := env.H - 80, w := 120, h := 80, speed := 8 }
    bones := []
    spawnTimer := 0
    spawnInterval := 80 }

/-- `resetGame()` from `game.js`: sets `score = 0; lives = 3; bones = [];
running = true` and nothing else (DOM label updates carry no simulation
state). -/
def resetGame (s : GameState) : GameState :=
  { s with score := 0, lives := 3, bones := [], running := true }

/-- The three `rand` draws one spawn consumes:
`size = rand(28,48)`, `x = rand(20, CANVAS_W-20)`, `vy = rand(2.0,4.0)`. -/
structure SpawnRand where
  size : ℚ
  x : ℚ
  vy : ℚ
deriving DecidableEq

/-- The spawn block of `update()` (lines 70–82): increment `spawnTimer`; when
it reaches `spawnInterval`, reset it to 0, push one new bone at `y = -50`
with the drawn `x`, `vy`, `size`, and decrement `spawnInterval` by `0.5`
whenever it still exceeds 30. -/
def spawnOnly (_env : Env) (rnd : SpawnRand) (s : GameState) : GameState :=
  let t := s.spawnTimer + 1
  if s.spawnInterval ≤ (t : ℚ) then
    { s with
      spawnTimer := 0
      bones := s.bones ++ [{ x := rnd.x, y := -50, vy := rnd.vy, size := rnd.size }]
      spawnInterval :=
        if 30 < s.spawnInterval then s.spawnInterval - 1/2 else s.spawnInterval }
  else
    { s with spawnTimer := t }

/-- The input-reduction block of `update()` (lines 85–94): start from
`player.x`; shift by `±player.speed*2` for the held direction keys; a stored
mouse X overrides the result entirely; active-and-available hand control
overrides everything, mapping normalized X by `handXNormalized * (CANVAS_W -
player.w)`. -/
def computeTargetX (env : Env) (c : ControlState) (p : Player) : ℚ :=
  let t0 := p.x
  let t1 := if c.arrowleft || c.a then t0 - p.speed * 2 else t0
  let t2 := if c.arrowright || c.d then t1 + p.speed * 2 else t1
  let t3 :=
    match c.mouseX with
    | some mx => mx - p.w / 2
    | none => t2
  if c.useHandControl then
    match c.handXNormalized with
    | some hx => hx * (env.W - p.w)
    | none => t3
  else t3

/-- The smoothing and clamping of `update()` (lines 97–98):
`player.x += (targetX - player.x) * 0.25` followed by
`player.x = Math.max(0, Math.min(CANVAS_W - player.w, player.x))`. -/
def movePlayer (env : Env) (c : ControlState) (p : Player) : Player :=
  let tx := computeTargetX env c p
  let x1 := p.x + (tx - p.x) * (1/4)
  { p with x := max 0 (min (env.W - p.w) x1) }

/-- The player-update portion of `update()` as a state transformer. -/
def inputOnly (env : Env) (c : ControlState) (s : GameState) : GameState :=
  { s with player := movePlayer env c s.player }

/-- Position integration and gravity for one bone (lines 103–104):
`b.y += b.vy; b.vy += 0.03`. -/
def integrate (b : Bone) : Bone :=
  { b with y := b.y + b.vy, vy := b.vy + 3/100 }

/-- The catch test of lines 107–108, on an already-integrated bone:
`b.y + b.size > player.y && b.y < player.y + player.h` and
`b.x > player.x - 20 && b.x < player.x + player.w + 20`
(all four comparisons strict in the source). -/
def caughtB (p : Player) (b : Bone) : Bool :=
  (decide (p.y < b.y + b.size) && decide (b.y < p.y + p.h)) &&
  (decide (p.x - 20 < b.x) && decide (b.x < p.x + p.w + 20))

/-- The miss test of line 118, on an already-integrated bone:
`b.y > CANVAS_H + 50`. -/
def missedB (env : Env) (b : Bone) : Bool :=
  decide (env.H + 50 < b.y)

/-- The bone loop of `update()` (lines 101–128). The source iterates
`i = bones.length-1 … 0`, so the last element is handled first; each bone is
integrated, then either caught (removed, `score += 10`, `continue`), missed
(removed, `lives -= 1`, and `running = false` as soon as the decremented
`lives` is ≤ 0), or kept.  Result: (surviving bones, score, lives, running). -/
def processBones (env : Env) (p : Player) :
    List Bone → ℤ → ℤ → Bool → List Bone × ℤ × ℤ × Bool
  | [], sc, lv, r => ([], sc, lv, r)
  | b :: bs, sc, lv, r =>
    match processBones env p bs sc lv r with
    | (rest, sc1, lv1, r1) =>
      let bi := integrate b
      if caughtB p bi then (rest, sc1 + 10, lv1, r1)
      else if missedB env bi then
        (rest, sc1, lv1 - 1, if lv1 - 1 ≤ 0 then false else r1)
      else (bi :: rest, sc1, lv1, r1)

/-- The bone loop as a state transformer. -/
def physicsOnly (env : Env) (s : GameState) : GameState :=
  match processBones env s.player s.bones s.score s.lives s.running with
  | (bs, sc, lv, r) =>
    { s with bones := bs, score := sc, lives := lv, running := r }

/-- One invocation of `update()` in `game.js`: when `running` is false the
function only draws and re-schedules itself, leaving every simulation
variable unchanged; when `running` is true it runs the spawn block, then the
input-reduction/smoothing block, then the bone loop (then draws). -/
def update (env : Env) (c : ControlState) (rnd : SpawnRand) (s : GameState) :
    GameState :=
  if s.running then physicsOnly env (inputOnly env c (spawnOnly env rnd s)) else s

/-- The `mousemove` listener (lines 60–63): stores
`e.clientX - rect.left` into `mouseX`. -/
def onMousemove (clientX rectLeft : ℚ) (c : ControlState) : ControlState :=
  { c with mouseX := some (clientX - rectLeft) }

/-- A key name as seen by the `keydown`/`keyup` listeners; only the four
tracked lowercased names can affect the game. -/
inductive Key
  | arrowleftK
  | aK
  | arrowrightK
  | dK
  | otherK
deriving DecidableEq

/-- The `keydown` (v = true) / `keyup` (v = false) listeners (lines 58–59):
set the key's entry in `keys`. -/
def setKey (k : Key) (v : Bool) (c : ControlState) : ControlState :=
  match k with
  | .arrowleftK => { c with arrowleft := v }
  | .aK => { c with a := v }
  | .arrowrightK => { c with arrowright := v }
  | .dK => { c with d := v }
  | .otherK => c

/-- The MediaPipe `onResults` callback (lines 207–218): stores the detected
normalized index-finger X, or `none` when no hand is visible. -/
def onHandResults (xh : Option ℚ) (c : ControlState) : ControlState :=
  { c with handXNormalized := xh }

/-- The hand-control disable branch (lines 243–253):
`useHandControl = false; handXNormalized = null`. -/
def disableHandControl (c : ControlState) : ControlState :=
  { c with useHandControl := false, handXNormalized := none }

/-- Number of bones of a tick's worklist that the loop catches. -/
def countCaught (p : Player) (bs : List Bone) : ℕ :=
  ((bs.map integrate).filter (fun b => caughtB p b)).length

/-- Number of bones of a tick's worklist that the loop misses
(fell past the line without being caught). -/
def countMissed (env : Env) (p : Player) (bs : List Bone) : ℕ :=
  ((bs.map integrate).filter (fun b => !caughtB p b && missedB env b)).length

/-- The bones that survive a tick's loop: the integrated bones that are
neither caught nor missed, in their original order. -/
def keptBones (env : Env) (p : Player) (bs : List Bone) : List Bone :=
  (bs.map integrate).filter (fun b => !caughtB p b && !missedB env b)

/-- The player position the catch tests of a tick compare against. -/
def tickPlayer (env : Env) (c : ControlState) (s : GameState) : Player :=
  movePlayer env c s.player

/-- The bone worklist of a tick: the stored bones plus the bone spawned this
tick, if any (the source pushes before the loop runs). -/
def preBones (env : Env) (rnd : SpawnRand) (s : GameState) : List Bone :=
  (spawnOnly env rnd s).bones

/-- The per-tick pipeline in the order §2 of the spec lists the components
(Input Reducer, then Spawner, then Physics & Collision), run
unconditionally. -/
def specPipeline (env : Env) (c : ControlState) (rnd : SpawnRand)
    (s : GameState) : GameState :=
  physicsOnly env (spawnOnly env rnd (inputOnly env c s))

/-- States reachable from page load by any interleaving of ticks and
start/reset clicks. -/
inductive Reachable (env : Env) : GameState → Prop
  | init : Reachable env (initialState env)
  | step (c : ControlState) (rnd : SpawnRand) (s : GameState) :
      Reachable env s → Reachable env (update env c rnd s)
  | reset (s : GameState) : Reachable env s → Reachable env (resetGame s)

/-- Closed form of the bone loop: the survivors are the kept bones in order,
the score gains 10 per catch, lives lose 1 per miss, and `running` is turned
off exactly when some miss pushed `lives` to 0 or below. -/
theorem processBones_eq (env : Env) (p : Player) (bs : List Bone) (sc lv : ℤ)
    (r : Bool) :
    processBones env p bs sc lv r =
      (keptBones env p bs,
       sc + 10 * (countCaught p bs : ℤ),
       lv - (countMissed env p bs : ℤ),
       if 0 < countMissed env p bs ∧ lv - (countMissed env p bs : ℤ) ≤ 0
       then false else r) := by
  induction bs with
  | nil =>
    simp [processBones, keptBones, countCaught, countMissed]
  | cons b bs ih =>
    simp only [processBones, ih, keptBones, countCaught, countMissed,
      List.map_cons, List.filter_cons]
    rcases hc : caughtB p (integrate b) with _ | _ <;>
      rcases hm : missedB env (integrate b) with _ | _ <;>
        simp only [hc, hm, Bool.not_true, Bool.not_false, Bool.true_and,
          Bool.false_and, Bool.and_true, Bool.and_false, if_true, if_false,
          Bool.and_self, List.length_cons, ite_true, ite_false] <;>
      refine Prod.ext rfl (Prod.ext ?_ (Prod.ext ?_ ?_)) <;>
      push_cast <;> try ring_nf
    split_ifs <;> first | rfl | (exfalso; omega)

/-- The spawn block never touches the player. -/
theorem spawnOnly_player (env : Env) (rnd : SpawnRand) (s : GameState) :
    (spawnOnly env rnd s).player = s.player := by
  simp only [spawnOnly]; split <;> rfl

/-- The spawn block never touches the score. -/
theorem spawnOnly_score (env : Env) (rnd : SpawnRand) (s : GameState) :
    (spawnOnly env rnd s).score = s.score := by
  simp only [spawnOnly]; split <;> rfl

/-- The spawn block never touches the lives. -/
theorem spawnOnly_lives (env : Env) (rnd : SpawnRand) (s : GameState) :
    (spawnOnly env rnd s).lives = s.lives := by
  simp only [spawnOnly]; split <;> rfl

/-- The spawn block never touches the running flag. -/
theorem spawnOnly_running (env : Env) (rnd : SpawnRand) (s : GameState) :
    (spawnOnly env rnd s).running = s.running := by
  simp only [spawnOnly]; split <;> rfl

/-- Score after an Active tick: 10 points per bone caught this tick. -/
theorem update_score (env : Env) (c : ControlState) (rnd : SpawnRand)
    (s : GameState) (h : s.running = true) :
    (update env c rnd s).score =
      s.score + 10 * (countCaught (tickPlayer env c s) (preBones env rnd s) : ℤ) := by
  simp only [update, h, if_true, physicsOnly, inputOnly, processBones_eq,
    spawnOnly_player, spawnOnly_score, spawnOnly_lives, spawnOnly_running,
    tickPlayer, preBones]

/-- Lives after an Active tick: one life per bone missed this tick. -/
theorem update_lives (env : Env) (c : ControlState) (rnd : SpawnRand)
    (s : GameState) (h : s.running = true) :
    (update env c rnd s).lives =
      s.lives - (countMissed env (tickPlayer env c s) (preBones env rnd s) : ℤ) := by
  simp only [update, h, if_true, physicsOnly, inputOnly, processBones_eq,
    spawnOnly_player, spawnOnly_score, spawnOnly_lives, spawnOnly_running,
    tickPlayer, preBones]

/-- Running flag after an Active tick: turned off exactly when a miss drove
lives to 0 or below. -/
theorem update_running (env : Env) (c : ControlState) (rnd : SpawnRand)
    (s : GameState) (h : s.running = true) :
    (update env c rnd s).running =
      (if 0 < countMissed env (tickPlayer env c s) (preBones env rnd s) ∧
          s.lives - (countMissed env (tickPlayer env c s) (preBones env rnd s) : ℤ) ≤ 0
       then false else true) := by
  simp only [update, h, if_true, physicsOnly, inputOnly, processBones_eq,
    spawnOnly_player, spawnOnly_score, spawnOnly_lives, spawnOnly_running,
    tickPlayer, preBones]

/-- Bones after an Active tick: the integrated bones of the tick's worklist
that were neither caught nor missed, in order. -/
theorem update_bones (env : Env) (c : ControlState) (rnd : SpawnRand)
    (s : GameState) (h : s.running = true) :
    (update env c rnd s).bones =
      keptBones env (tickPlayer env c s) (preBones env rnd s) := by
  simp only [update, h, if_true, physicsOnly, inputOnly, processBones_eq,
    spawnOnly_player, tickPlayer, preBones]

/-- Player after an Active tick: the smoothed-and-clamped move. -/
theorem update_player (env : Env) (c : ControlState) (rnd : SpawnRand)
    (s : GameState) (h : s.running = true) :
    (update env c rnd s).player = tickPlayer env c s := by
  simp only [update, h, if_true, physicsOnly, inputOnly, processBones_eq,
    spawnOnly_player, tickPlayer]

/-- The spawn-state fields after an Active tick come from the spawn block. -/
theorem update_spawnState (env : Env) (c : ControlState) (rnd : SpawnRand)
    (s : GameState) (h : s.running = true) :
    (update env c rnd s).spawnTimer = (spawnOnly env rnd s).spawnTimer ∧
    (update env c rnd s).spawnInterval = (spawnOnly env rnd s).spawnInterval := by
  constructor <;>
    simp only [update, h, if_true, physicsOnly, inputOnly, processBones_eq]

/-- A tick with `running = false` changes nothing. -/
theorem update_not_running (env : Env) (c : ControlState) (rnd : SpawnRand)
    (s : GameState) (h : s.running = false) :
    update env c rnd s = s := by
  simp [update, h]

/-- Every stored bone is in the tick's worklist (spawning only appends). -/
theorem mem_preBones (env : Env) (rnd : SpawnRand) (s : GameState) (b : Bone)
    (hb : b ∈ s.bones) : b ∈ preBones env rnd s := by
  simp only [preBones, spawnOnly]
  split
  · exact List.mem_append_left _ hb
  · exact hb

/-- A bone surviving the loop was neither caught nor missed. -/
theorem of_mem_keptBones (env : Env) (p : Player) (bs : List Bone) (b : Bone)
    (hb : b ∈ keptBones env p bs) :
    caughtB p b = false ∧ missedB env b = false := by
  have h := (List.mem_filter.1 hb).2
  constructor
  · cases hc : caughtB p b
    · rfl
    · rw [hc] at h; simp at h
  · cases hm : missedB env b
    · rfl
    · rw [hm] at h; simp at h

/-- C4: `resetGame` from any state yields score 0, lives 3, an empty bone
collection and `running = true`, and leaves `spawnTimer` and `spawnInterval`
unchanged (the difficulty ramp carries over across resets). -/
theorem reset_state (s : GameState) :
    (resetGame s).score = 0 ∧ (resetGame s).lives = 3 ∧
    (resetGame s).bones = [] ∧ (resetGame s).running = true ∧
    (resetGame s).spawnTimer = s.spawnTimer ∧
    (resetGame s).spawnInterval = s.spawnInterval :=
  ⟨rfl, rfl, rfl, rfl, rfl, rfl⟩

/-- C3: a miss that brings lives to exactly 0 turns `running` off on that
same tick; a tick with `running = false` leaves the whole state unchanged
(no spawning, no physics — only rendering happens); a tick never turns
`running` on, so only `resetGame` (which sets it) can: game-over is one-way. -/
theorem game_over_transition (env : Env) (c : ControlState) (rnd : SpawnRand)
    (s : GameState) :
    (s.running = true → (update env c rnd s).lives = 0 →
      (update env c rnd s).lives ≠ s.lives → (update env c rnd s).running = false)
    ∧ (s.running = false → update env c rnd s = s)
    ∧ ((update env c rnd s).running = true → s.running = true)
    ∧ (resetGame s).running = true := by
  refine ⟨?_, update_not_running env c rnd s, ?_, rfl⟩
  · intro h h0 hne
    rw [update_lives env c rnd s h] at h0 hne
    rw [update_running env c rnd s h, if_pos]
    exact ⟨by omega, by omega⟩
  · intro hr
    cases hs : s.running
    · rw [update_not_running env c rnd s hs] at hr
      rw [hs] at hr
      exact hr
    · rfl

/-- Geometry for the game-over scenario: an 800×500 field. -/
def c3Env : Env := { W := 800, H := 500 }

/-- No keys, no pointer, no hand control. -/
def c3Ctrl : ControlState :=
  { arrowleft := false, a := false, arrowright := false, d := false,
    mouseX := none, useHandControl := false, handXNormalized := none }

/-- Spawn draws (unused this tick: the timer is far from the interval). -/
def c3Rnd : SpawnRand := { size := 30, x := 400, vy := 3 }

/-- One life left and one bone already past the miss line. -/
def c3State : GameState :=
  { score := 0, lives := 1, running := true,
    player := { x := 100, y := 420, w := 120, h := 80, speed := 8 },
    bones := [{ x := 10, y := 600, vy := 0, size := 10 }],
    spawnTimer := 0, spawnInterval := 80 }

theorem game_over_transition_witness :
    (update c3Env c3Ctrl c3Rnd c3State).running = false ∧
    (resetGame c3State).running = true :=
  ⟨(game_over_transition c3Env c3Ctrl c3Rnd c3State).1 rfl
      (by norm_num [update, spawnOnly, inputOnly, physicsOnly, movePlayer,
        computeTargetX, processBones, integrate, caughtB, missedB, c3State,
        c3Env, c3Ctrl, c3Rnd])
      (by norm_num [update, spawnOnly, inputOnly, physicsOnly, movePlayer,
        computeTargetX, processBones, integrate, caughtB, missedB, c3State,
        c3Env, c3Ctrl, c3Rnd]),
   (game_over_transition c3Env c3Ctrl c3Rnd c3State).2.2.2⟩

/-- Geometry for the catch scenarios: an 800×500 field. -/
def c1Env : Env := { W := 800, H := 500 }

/-- No keys, no pointer, no hand control: the player does not move. -/
def c1Ctrl : ControlState :=
  { arrowleft := false, a := false, arrowright := false, d := false,
    mouseX := none, useHandControl := false, handXNormalized := none }

/-- Spawn draws (unused this tick: the timer is far from the interval). -/
def c1Rnd : SpawnRand := { size := 30, x := 400, vy := 3 }

/-- A bone whose center sits exactly on the left edge of the tolerance band
(`player.x − 20 = 80`) and whose vertical span overlaps the player's. -/
def c1Bone : Bone := { x := 80, y := 400, vy := 0, size := 48 }

/-- Active state holding exactly `c1Bone`. -/
def c1State : GameState :=
  { score := 0, lives := 3, running := true,
    player := { x := 100, y := 420, w := 120, h := 80, speed := 8 },
    bones := [c1Bone],
    spawnTimer := 0, spawnInterval := 80 }

/-- C1 counterexample: a bone whose vertical span overlaps the player's and
whose horizontal center lies within the CLOSED band
`[player.x − 20, player.x + player.w + 20]` — exactly on its left edge — is
neither removed nor scored: the source compares with strict `<`/`>`. -/
theorem catch_detection_counterexample :
    c1State.running = true ∧ c1Bone ∈ c1State.bones ∧
    (tickPlayer c1Env c1Ctrl c1State).y <
      (integrate c1Bone).y + (integrate c1Bone).size ∧
    (integrate c1Bone).y <
      (tickPlayer c1Env c1Ctrl c1State).y + (tickPlayer c1Env c1Ctrl c1State).h ∧
    (tickPlayer c1Env c1Ctrl c1State).x - 20 ≤ (integrate c1Bone).x ∧
    (integrate c1Bone).x ≤
      (tickPlayer c1Env c1Ctrl c1State).x + (tickPlayer c1Env c1Ctrl c1State).w + 20 ∧
    (update c1Env c1Ctrl c1Rnd c1State).bones = [integrate c1Bone] ∧
    (update c1Env c1Ctrl c1Rnd c1State).score = c1State.score := by
  norm_num [update, spawnOnly, inputOnly, physicsOnly, movePlayer, computeTargetX,
    processBones, integrate, caughtB, missedB, tickPlayer, c1State, c1Env,
    c1Ctrl, c1Rnd, c1Bone]

/-- C1 (amended): on an Active tick, every stored bone whose post-integration
vertical span strictly overlaps the player's and whose horizontal center lies
STRICTLY inside the open band `(player.x − 20, player.x + player.w + 20)`
(player taken after this tick's move) is removed, the score gains exactly 10
per caught bone, at least this bone is caught, and caught bones contribute
nothing to the lives change (they are not evaluated for a miss). -/
theorem catch_detection (env : Env) (c : ControlState) (rnd : SpawnRand)
    (s : GameState) (hrun : s.running = true) (b : Bone) (hb : b ∈ s.bones)
    (hv1 : (tickPlayer env c s).y < (integrate b).y + (integrate b).size)
    (hv2 : (integrate b).y <
      (tickPlayer env c s).y + (tickPlayer env c s).h)
    (hx1 : (tickPlayer env c s).x - 20 < (integrate b).x)
    (hx2 : (integrate b).x <
      (tickPlayer env c s).x + (tickPlayer env c s).w + 20) :
    integrate b ∉ (update env c rnd s).bones ∧
    (update env c rnd s).score =
      s.score + 10 * (countCaught (tickPlayer env c s) (preBones env rnd s) : ℤ) ∧
    1 ≤ countCaught (tickPlayer env c s) (preBones env rnd s) ∧
    (update env c rnd s).lives =
      s.lives - (countMissed env (tickPlayer env c s) (preBones env rnd s) : ℤ) := by
  have hcB : caughtB (tickPlayer env c s) (integrate b) = true := by
    simp only [caughtB, Bool.and_eq_true, decide_eq_true_eq]
    exact ⟨⟨hv1, hv2⟩, hx1, hx2⟩
  refine ⟨?_, update_score env c rnd s hrun, ?_, update_lives env c rnd s hrun⟩
  · rw [update_bones env c rnd s hrun]
    intro hmem
    have hkept := (of_mem_keptBones env (tickPlayer env c s)
      (preBones env rnd s) (integrate b) hmem).1
    rw [hcB] at hkept
    exact Bool.noConfusion hkept
  · have hbp : b ∈ preBones env rnd s := mem_preBones env rnd s b hb
    have hmem : integrate b ∈ (preBones env rnd s).map integrate :=
      List.mem_map_of_mem _ hbp
    have hfil : integrate b ∈
        ((preBones env rnd s).map integrate).filter
          (fun x => caughtB (tickPlayer env c s) x) :=
      List.mem_filter.2 ⟨hmem, hcB⟩
    have hpos := List.length_pos.2 (List.ne_nil_of_mem hfil)
    simp only [countCaught]
    omega

/-- A bone strictly inside the band, for the catch witness. -/
def c1wBone : Bone := { x := 160, y := 400, vy := 0, size := 48 }

/-- Active state holding exactly `c1wBone`. -/
def c1wState : GameState :=
  { score := 0, lives := 3, running := true,
    player := { x := 100, y := 420, w := 120, h := 80, speed := 8 },
    bones := [c1wBone],
    spawnTimer := 0, spawnInterval := 80 }

theorem catch_detection_witness :
    integrate c1wBone ∉ (update c1Env c1Ctrl c1Rnd c1wState).bones ∧
    (update c1Env c1Ctrl c1Rnd c1wState).score =
      c1wState.score + 10 *
        (countCaught (tickPlayer c1Env c1Ctrl c1wState)
          (preBones c1Env c1Rnd c1wState) : ℤ) ∧
    1 ≤ countCaught (tickPlayer c1Env c1Ctrl c1wState)
        (preBones c1Env c1Rnd c1wState) ∧
    (update c1Env c1Ctrl c1Rnd c1wState).lives =
      c1wState.lives - (countMissed c1Env (tickPlayer c1Env c1Ctrl c1wState)
        (preBones c1Env c1Rnd c1wState) : ℤ) :=
  catch_detection c1Env c1Ctrl c1Rnd c1wState rfl c1wBone
    (by simp [c1wState])
    (by norm_num [tickPlayer, movePlayer, computeTargetX, integrate, c1wState,
      c1Env, c1Ctrl, c1wBone])
    (by norm_num [tickPlayer, movePlayer, computeTargetX, integrate, c1wState,
      c1Env, c1Ctrl, c1wBone])
    (by norm_num [tickPlayer, movePlayer, computeTargetX, integrate, c1wState,
      c1Env, c1Ctrl, c1wBone])
    (by norm_num [tickPlayer, movePlayer, computeTargetX, integrate, c1wState,
      c1Env, c1Ctrl, c1wBone])

/-- C2: on an Active tick, every stored bone whose post-integration `y`
exceeds `fieldHeight + 50` and that is not caught this tick is removed, the
lives drop by exactly 1 per missed bone, at least this bone is missed, and
the score changes only by the catches. -/
theorem miss_detection (env : Env) (c : ControlState) (rnd : SpawnRand)
    (s : GameState) (hrun : s.running = true) (b : Bone) (hb : b ∈ s.bones)
    (hmiss : env.H + 50 < (integrate b).y)
    (hnc : caughtB (tickPlayer env c s) (integrate b) = false) :
    integrate b ∉ (update env c rnd s).bones ∧
    (update env c rnd s).lives =
      s.lives - (countMissed env (tickPlayer env c s) (preBones env rnd s) : ℤ) ∧
    1 ≤ countMissed env (tickPlayer env c s) (preBones env rnd s) ∧
    (update env c rnd s).score =
      s.score + 10 * (countCaught (tickPlayer env c s) (preBones env rnd s) : ℤ) := by
  have hmB : missedB env (integrate b) = true := by
    simp only [missedB, decide_eq_true_eq]
    exact hmiss
  refine ⟨?_, update_lives env c rnd s hrun, ?_, update_score env c rnd s hrun⟩
  · rw [update_bones env c rnd s hrun]
    intro hmem
    have hkept := (of_mem_keptBones env (tickPlayer env c s)
      (preBones env rnd s) (integrate b) hmem).2
    rw [hmB] at hkept
    exact Bool.noConfusion hkept
  · have hbp : b ∈ preBones env rnd s := mem_preBones env rnd s b hb
    have hmem : integrate b ∈ (preBones env rnd s).map integrate :=
      List.mem_map_of_mem _ hbp
    have hfil : integrate b ∈
        ((preBones env rnd s).map integrate).filter
          (fun x => !caughtB (tickPlayer env c s) x && missedB env x) := by
      refine List.mem_filter.2 ⟨hmem, ?_⟩
      rw [hnc, hmB]
      rfl
    have hpos := List.length_pos.2 (List.ne_nil_of_mem hfil)
    simp only [countMissed]
    omega

/-- Geometry for the miss scenario: an 800×500 field. -/
def c2Env : Env := { W := 800, H := 500 }

/-- No keys, no pointer, no hand control. -/
def c2Ctrl : ControlState :=
  { arrowleft := false, a := false, arrowright := false, d := false,
    mouseX := none, useHandControl := false, handXNormalized := none }

/-- Spawn draws (unused this tick). -/
def c2Rnd : SpawnRand := { size := 30, x := 400, vy := 3 }

/-- A bone already past the miss line (`y = 600 > 500 + 50`). -/
def c2Bone : Bone := { x := 10, y := 600, vy := 0, size := 10 }

/-- Active state holding exactly `c2Bone`, with 3 lives. -/
def c2State : GameState :=
  { score := 0, lives := 3, running := true,
    player := { x := 100, y := 420, w := 120, h := 80, speed := 8 },
    bones := [c2Bone],
    spawnTimer := 0, spawnInterval := 80 }

theorem miss_detection_witness :
    integrate c2Bone ∉ (update c2Env c2Ctrl c2Rnd c2State).bones ∧
    (update c2Env c2Ctrl c2Rnd c2State).lives =
      c2State.lives - (countMissed c2Env (tickPlayer c2Env c2Ctrl c2State)
        (preBones c2Env c2Rnd c2State) : ℤ) ∧
    1 ≤ countMissed c2Env (tickPlayer c2Env c2Ctrl c2State)
        (preBones c2Env c2Rnd c2State) ∧
    (update c2Env c2Ctrl c2Rnd c2State).score =
      c2State.score + 10 * (countCaught (tickPlayer c2Env c2Ctrl c2State)
        (preBones c2Env c2Rnd c2State) : ℤ) :=
  miss_detection c2Env c2Ctrl c2Rnd c2State rfl c2Bone
    (by simp [c2State])
    (by norm_num [integrate, c2Env, c2Bone])
    (by norm_num [tickPlayer, movePlayer, computeTargetX, integrate, caughtB,
      c2State, c2Env, c2Ctrl, c2Bone])

/-- A tick never increases the spawn interval. -/
theorem update_interval_le (env : Env) (c : ControlState) (rnd : SpawnRand)
    (s : GameState) :
    (update env c rnd s).spawnInterval ≤ s.spawnInterval := by
  cases hr : s.running
  · rw [update_not_running env c rnd s hr]
  · rw [(update_spawnState env c rnd s hr).2]
    simp only [spawnOnly]
    split
    · dsimp only
      split
      · linarith
      · exact le_refl _
    · exact le_refl _

/-- Every reachable spawn interval has the shape `80 − k/2` with `k ≤ 100`:
the interval starts at 80, only ever shrinks by halves, and is only shrunk
while it still exceeds 30. -/
theorem reachable_interval (env : Env) (s : GameState) (h : Reachable env s) :
    ∃ k : ℕ, k ≤ 100 ∧ s.spawnInterval = 80 - (k : ℚ) / 2 := by
  induction h with
  | init => exact ⟨0, by norm_num, by norm_num [initialState]⟩
  | step c rnd s hs ih =>
    obtain ⟨k, hk, hi⟩ := ih
    cases hr : s.running
    · rw [update_not_running env c rnd s hr]
      exact ⟨k, hk, hi⟩
    · rw [(update_spawnState env c rnd s hr).2]
      simp only [spawnOnly]
      split
      · dsimp only
        split
        · rename_i hgt
          refine ⟨k + 1, ?_, ?_⟩
          · rw [hi] at hgt
            have hq : (k : ℚ) < 100 := by linarith
            have hn : k < 100 := by exact_mod_cast hq
            omega
          · rw [hi]; push_cast; ring
        · exact ⟨k, hk, hi⟩
      · exact ⟨k, hk, hi⟩
  | reset s hs ih => exact ih

/-- C5: in every reachable state the spawn interval is at least the floor of
30 frames, and a tick never increases it (monotone non-increasing ramp). -/
theorem spawn_interval_floor (env : Env) (c : ControlState) (rnd : SpawnRand)
    (s : GameState) (hs : Reachable env s) :
    30 ≤ s.spawnInterval ∧
    (update env c rnd s).spawnInterval ≤ s.spawnInterval := by
  obtain ⟨k, hk, hi⟩ := reachable_interval env s hs
  refine ⟨?_, update_interval_le env c rnd s⟩
  rw [hi]
  have hq : (k : ℚ) ≤ 100 := by exact_mod_cast hk
  linarith

/-- Geometry for the spawn-floor witness. -/
def c5Env : Env := { W := 800, H := 500 }

/-- No inputs. -/
def c5Ctrl : ControlState :=
  { arrowleft := false, a := false, arrowright := false, d := false,
    mouseX := none, useHandControl := false, handXNormalized := none }

/-- Arbitrary spawn draws. -/
def c5Rnd : SpawnRand := { size := 30, x := 400, vy := 3 }

theorem spawn_interval_floor_witness :
    30 ≤ (initialState c5Env).spawnInterval ∧
    (update c5Env c5Ctrl c5Rnd (initialState c5Env)).spawnInterval ≤
      (initialState c5Env).spawnInterval :=
  spawn_interval_floor c5Env c5Ctrl c5Rnd (initialState c5Env) Reachable.init

/-- C6: precedence of the input reduction. Active-and-available hand control
determines `targetX` as `handX * (W − player.w)` outright; otherwise a stored
pointer X determines it as `mouseX − player.w/2`; only when neither override
is present do the held direction keys shift the player's current x by the
fixed step `player.speed * 2` per direction. -/
theorem input_precedence (env : Env) (c : ControlState) (p : Player)
    (hx mx : ℚ) :
    (c.useHandControl = true → c.handXNormalized = some hx →
      computeTargetX env c p = hx * (env.W - p.w))
    ∧ ((c.useHandControl = false ∨ c.handXNormalized = none) →
      c.mouseX = some mx → computeTargetX env c p = mx - p.w / 2)
    ∧ ((c.useHandControl = false ∨ c.handXNormalized = none) →
      c.mouseX = none →
      computeTargetX env c p =
        p.x - (if c.arrowleft || c.a then p.speed * 2 else 0)
            + (if c.arrowright || c.d then p.speed * 2 else 0)) := by
  refine ⟨?_, ?_, ?_⟩
  · intro h1 h2
    simp [computeTargetX, h1, h2]
  · intro hor hmx
    rcases hor with h | h <;> simp [computeTargetX, h, hmx]
  · intro hor hmx
    rcases hor with h | h <;>
      cases hl : (c.arrowleft || c.a) <;>
        cases hr : (c.arrowright || c.d) <;>
          simp [computeTargetX, h, hmx, hl, hr]

/-- Pointer and hand flags for the precedence witness: a stored pointer at
x = 300, hand control off, both direction keys held (and overridden). -/
def c6Ctrl : ControlState :=
  { arrowleft := true, a := false, arrowright := true, d := false,
    mouseX := some 300, useHandControl := false, handXNormalized := none }

/-- Geometry for the precedence witness. -/
def c6Env : Env := { W := 800, H := 500 }

/-- Player for the precedence witness. -/
def c6Player : Player := { x := 100, y := 420, w := 120, h := 80, speed := 8 }

theorem input_precedence_witness :
    computeTargetX c6Env c6Ctrl c6Player = 300 - c6Player.w / 2 :=
  (input_precedence c6Env c6Ctrl c6Player 0 300).2.1 (Or.inl rfl) rfl

/-- C7: after any Active tick of a field at least as wide as the player, the
player's x lies in `[0, fieldWidth − player.w]`, whatever the control inputs
are — including an external normalized X far outside `[0,1]`; the tick is a
total function, so no input can fail it. -/
theorem player_clamped (env : Env) (c : ControlState) (rnd : SpawnRand)
    (s : GameState) (hrun : s.running = true) (hw : s.player.w ≤ env.W) :
    0 ≤ (update env c rnd s).player.x ∧
    (update env c rnd s).player.x ≤ env.W - (update env c rnd s).player.w := by
  rw [update_player env c rnd s hrun]
  constructor
  · dsimp only [tickPlayer, movePlayer]
    exact le_max_left 0 _
  · dsimp only [tickPlayer, movePlayer]
    exact max_le (by linarith) (min_le_left _ _)

/-- Geometry for the clamp witness. -/
def c7Env : Env := { W := 800, H := 500 }

/-- Hand control active with a normalized X of 7 — far outside `[0,1]`. -/
def c7Ctrl : ControlState :=
  { arrowleft := false, a := false, arrowright := false, d := false,
    mouseX := none, useHandControl := true, handXNormalized := some 7 }

/-- Spawn draws for the clamp witness. -/
def c7Rnd : SpawnRand := { size := 30, x := 400, vy := 3 }

/-- Active state for the clamp witness. -/
def c7State : GameState :=
  { score := 0, lives := 3, running := true,
    player := { x := 100, y := 420, w := 120, h := 80, speed := 8 },
    bones := [],
    spawnTimer := 0, spawnInterval := 80 }

theorem player_clamped_witness :
    0 ≤ (update c7Env c7Ctrl c7Rnd c7State).player.x ∧
    (update c7Env c7Ctrl c7Rnd c7State).player.x ≤
      c7Env.W - (update c7Env c7Ctrl c7Rnd c7State).player.w :=
  player_clamped c7Env c7Ctrl c7Rnd c7State rfl
    (by norm_num [c7State, c7Env])

/-- The spawn block and the player-update block commute: the spawner touches
neither the player nor anything the input reduction reads, and vice versa. -/
theorem input_spawn_comm (env : Env) (c : ControlState) (rnd : SpawnRand)
    (s : GameState) :
    inputOnly env c (spawnOnly env rnd s) = spawnOnly env rnd (inputOnly env c s) := by
  simp only [inputOnly, spawnOnly]
  split <;> rfl

/-- C8 (amended): on an Active tick the driver runs the Input Reducer, the
Spawner and the Physics & Collision step (the source runs the spawner first,
but spawner and input reduction commute, so the §2 order is equivalent); on a
tick with `running = false` the simulation state is left entirely unchanged —
only rendering happens. -/
theorem loop_sequencing (env : Env) (c : ControlState) (rnd : SpawnRand)
    (s : GameState) :
    (s.running = true → update env c rnd s = specPipeline env c rnd s)
    ∧ (s.running = false → update env c rnd s = s) := by
  refine ⟨?_, update_not_running env c rnd s⟩
  intro h
  simp only [update, h, if_true, specPipeline, input_spawn_comm]

/-- Geometry for the sequencing scenarios. -/
def c8Env : Env := { W := 800, H := 500 }

/-- No inputs. -/
def c8Ctrl : ControlState :=
  { arrowleft := false, a := false, arrowright := false, d := false,
    mouseX := none, useHandControl := false, handXNormalized := none }

/-- Spawn draws. -/
def c8Rnd : SpawnRand := { size := 30, x := 400, vy := 3 }

/-- A paused/over state holding a falling bone. -/
def c8State : GameState :=
  { score := 0, lives := 0, running := false,
    player := { x := 100, y := 420, w := 120, h := 80, speed := 8 },
    bones := [{ x := 100, y := 50, vy := 5, size := 30 }],
    spawnTimer := 0, spawnInterval := 80 }

/-- C8 counterexample: with `running = false` the tick changes nothing, while
the claimed unconditional Input → Spawner → Physics pipeline would (its spawn
timer advances) — so the pipeline does NOT run regardless of run state. -/
theorem loop_sequencing_counterexample :
    c8State.running = false ∧
    update c8Env c8Ctrl c8Rnd c8State = c8State ∧
    specPipeline c8Env c8Ctrl c8Rnd c8State ≠ c8State := by
  refine ⟨rfl, update_not_running c8Env c8Ctrl c8Rnd c8State rfl, ?_⟩
  intro hEq
  have h1 := congrArg GameState.spawnTimer hEq
  norm_num [specPipeline, spawnOnly, inputOnly, physicsOnly, movePlayer,
    computeTargetX, processBones, integrate, caughtB, missedB, c8State,
    c8Env, c8Ctrl, c8Rnd] at h1

/-- An Active state for the sequencing witness. -/
def c8wState : GameState :=
  { score := 0, lives := 3, running := true,
    player := { x := 100, y := 420, w := 120, h := 80, speed := 8 },
    bones := [{ x := 100, y := 50, vy := 5, size := 30 }],
    spawnTimer := 0, spawnInterval := 80 }

theorem loop_sequencing_witness :
    update c8Env c8Ctrl c8Rnd c8wState = specPipeline c8Env c8Ctrl c8Rnd c8wState ∧
    update c8Env c8Ctrl c8Rnd c8State = c8State :=
  ⟨(loop_sequencing c8Env c8Ctrl c8Rnd c8wState).1 rfl,
   (loop_sequencing c8Env c8Ctrl c8Rnd c8State).2 rfl⟩

/-- C9: an Active tick processes every bone of its worklist even when a miss
mid-loop drives `lives` to 0 and turns `running` off: the score gains 10 for
every caught bone and the lives drop 1 for every missed bone of the whole
worklist, and `running` ends false exactly when the total misses push lives
to 0 or below — so lives can end strictly below 0 and catches still score on
the game-over tick. -/
theorem processing_continues (env : Env) (c : ControlState) (rnd : SpawnRand)
    (s : GameState) (hrun : s.running = true) :
    (update env c rnd s).score =
      s.score + 10 * (countCaught (tickPlayer env c s) (preBones env rnd s) : ℤ) ∧
    (update env c rnd s).lives =
      s.lives - (countMissed env (tickPlayer env c s) (preBones env rnd s) : ℤ) ∧
    (update env c rnd s).running =
      (if 0 < countMissed env (tickPlayer env c s) (preBones env rnd s) ∧
          s.lives - (countMissed env (tickPlayer env c s) (preBones env rnd s) : ℤ) ≤ 0
       then false else true) :=
  ⟨update_score env c rnd s hrun, update_lives env c rnd s hrun,
   update_running env c rnd s hrun⟩

/-- Geometry for the mid-loop game-over scenario. -/
def c9Env : Env := { W := 800, H := 500 }

/-- No inputs. -/
def c9Ctrl : ControlState :=
  { arrowleft := false, a := false, arrowright := false, d := false,
    mouseX := none, useHandControl := false, handXNormalized := none }

/-- Spawn draws (unused this tick). -/
def c9Rnd : SpawnRand := { size := 30, x := 400, vy := 3 }

/-- One life left; one catchable bone and two bones past the miss line. -/
def c9State : GameState :=
  { score := 0, lives := 1, running := true,
    player := { x := 100, y := 420, w := 120, h := 80, speed := 8 },
    bones := [{ x := 150, y := 410, vy := 0, size := 48 },
              { x := 10, y := 600, vy := 0, size := 10 },
              { x := 20, y := 600, vy := 0, size := 10 }],
    spawnTimer := 0, spawnInterval := 80 }

theorem processing_continues_witness :
    (update c9Env c9Ctrl c9Rnd c9State).score = 10 ∧
    (update c9Env c9Ctrl c9Rnd c9State).lives = -1 ∧
    (update c9Env c9Ctrl c9Rnd c9State).running = false := by
  have h := processing_continues c9Env c9Ctrl c9Rnd c9State rfl
  have hc : countCaught (tickPlayer c9Env c9Ctrl c9State)
      (preBones c9Env c9Rnd c9State) = 1 := by
    norm_num [countCaught, tickPlayer, preBones, spawnOnly, movePlayer,
      computeTargetX, integrate, caughtB, missedB, c9State, c9Env, c9Ctrl,
      c9Rnd, List.filter]
  have hm : countMissed c9Env (tickPlayer c9Env c9Ctrl c9State)
      (preBones c9Env c9Rnd c9State) = 2 := by
    norm_num [countMissed, tickPlayer, preBones, spawnOnly, movePlayer,
      computeTargetX, integrate, caughtB, missedB, c9State, c9Env, c9Ctrl,
      c9Rnd, List.filter]
  refine ⟨?_, ?_, ?_⟩
  · rw [h.1, hc]; norm_num [c9State]
  · rw [h.2.1, hm]; norm_num [c9State]
  · rw [h.2.2, hm]; norm_num [c9State]

/-- C10: the stored pointer X is sticky. The `mousemove` handler always
stores a concrete value; no other input handler writes `mouseX` at all; once
a pointer X is stored and hand control is off, `targetX` is
`mouseX − player.w/2` whatever the key flags are; hence two ticks whose
control states differ only in the held keys produce identical states. -/
theorem pointer_latch (env : Env) (rnd : SpawnRand) (s : GameState)
    (c c1 c2 : ControlState) (p : Player) (cx rl mx : ℚ) (k : Key) (v : Bool)
    (xh : Option ℚ) :
    (onMousemove cx rl c).mouseX = some (cx - rl)
    ∧ (setKey k v c).mouseX = c.mouseX
    ∧ (onHandResults xh c).mouseX = c.mouseX
    ∧ (disableHandControl c).mouseX = c.mouseX
    ∧ (c.mouseX = some mx → c.useHandControl = false →
        computeTargetX env c p = mx - p.w / 2)
    ∧ (c1.mouseX = some mx → c2.mouseX = some mx →
        c1.useHandControl = false → c2.useHandControl = false →
        update env c1 rnd s = update env c2 rnd s) := by
  refine ⟨rfl, ?_, rfl, rfl, ?_, ?_⟩
  · cases k <;> rfl
  · intro h1 h2
    simp [computeTargetX, h1, h2]
  · intro h1 h2 h3 h4
    have hmv : ∀ q : Player, movePlayer env c1 q = movePlayer env c2 q := by
      intro q
      simp [movePlayer, computeTargetX, h1, h2, h3, h4]
    cases hr : s.running
    · rw [update_not_running env c1 rnd s hr, update_not_running env c2 rnd s hr]
    · simp only [update, hr, if_true, inputOnly, hmv]

/-- Geometry for the pointer-latch witness. -/
def c10Env : Env := { W := 800, H := 500 }

/-- Pointer stored at 300, hand off, left key held. -/
def c10CtrlL : ControlState :=
  { arrowleft := true, a := false, arrowright := false, d := false,
    mouseX := some 300, useHandControl := false, handXNormalized := none }

/-- Pointer stored at 300, hand off, right key held instead. -/
def c10CtrlR : ControlState :=
  { arrowleft := false, a := false, arrowright := true, d := true,
    mouseX := some 300, useHandControl := false, handXNormalized := none }

/-- Spawn draws for the pointer-latch witness. -/
def c10Rnd : SpawnRand := { size := 30, x := 400, vy := 3 }

/-- Active state for the pointer-latch witness. -/
def c10State : GameState :=
  { score := 0, lives := 3, running := true,
    player := { x := 100, y := 420, w := 120, h := 80, speed := 8 },
    bones := [{ x := 150, y := 410, vy := 0, size := 48 }],
    spawnTimer := 0, spawnInterval := 80 }

theorem pointer_latch_witness :
    (onMousemove 320 20 c10CtrlL).mouseX = some (320 - 20) ∧
    update c10Env c10CtrlL c10Rnd c10State = update c10Env c10CtrlR c10Rnd c10State :=
  ⟨(pointer_latch c10Env c10Rnd c10State c10CtrlL c10CtrlL c10CtrlR
      c10State.player 320 20 300 Key.aK true none).1,
   (pointer_latch c10Env c10Rnd c10State c10CtrlL c10CtrlL c10CtrlR
      c10State.player 320 20 300 Key.aK true none).2.2.2.2.2 rfl rfl rfl rfl⟩
